import Mathlib

/-!
Formal model of the CreditExplain Self-RAG core (src/core/self_rag.py,
src/core/critic.py, src/core/provenance.py, src/api/app.py).

External collaborators (LLM calls, the vector store, the cross-encoder,
the file system clock) are modelled as oracles: per-run records of the
outcomes those calls produce.  Machine floats of the source are modelled
as rationals; the weighted-score arithmetic of the source is exact, so
nothing is lost.  Wall-clock fields (timestamp, latency) and model-version
strings are omitted from the audit model: no claim mentions them.
-/

namespace CreditExplain

/-- A Python scalar value as it can appear in the JSON dict returned by the
scoring LLM.  `pyList`/`pyDict`/`pyNull` stand for the non-numeric values on
which Python `float(...)` raises `TypeError`. -/
inductive PyVal where
  | pyNum (q : ℚ)
  | pyBool (b : Bool)
  | pyStr (s : String)
  | pyNull
  | pyList
  | pyDict
  deriving DecidableEq, Repr

/-- Value of a single decimal digit character. -/
def digitVal (c : Char) : Option ℕ :=
  if c = '0' then some 0 else if c = '1' then some 1 else if c = '2' then some 2
  else if c = '3' then some 3 else if c = '4' then some 4 else if c = '5' then some 5
  else if c = '6' then some 6 else if c = '7' then some 7 else if c = '8' then some 8
  else if c = '9' then some 9 else none

/-- Accumulate the value of a digit string; `none` when a non-digit occurs. -/
def digitsValAux : List Char → ℕ → Option ℕ
  | [], acc => some acc
  | c :: cs, acc =>
    match digitVal c with
    | some d => digitsValAux cs (acc * 10 + d)
    | none => none

/-- Parse a decimal literal the way Python `float(str)` does on plain decimal
forms: optional sign, integer part, optional fractional part, with at least
one digit overall.  (Exponent and inf/nan forms of `float` are outside the
model; no claim depends on them.) -/
def parseDec (s : String) : Option ℚ :=
  let cs := s.data
  let signAndRest : ℚ × List Char :=
    match cs with
    | '-' :: r => (-1, r)
    | '+' :: r => (1, r)
    | r => (1, r)
  let sign := signAndRest.1
  let rest := signAndRest.2
  let ip := rest.takeWhile (fun c => c ≠ '.')
  let rest2 := rest.dropWhile (fun c => c ≠ '.')
  match rest2 with
  | [] =>
    if ip.isEmpty then none
    else (digitsValAux ip 0).map fun n => sign * (n : ℚ)
  | _ :: fp =>
    match digitsValAux ip 0, digitsValAux fp 0 with
    | some i, some f =>
      if ip.isEmpty && fp.isEmpty then none
      else some (sign * ((i : ℚ) + (f : ℚ) / (10 : ℚ) ^ fp.length))
    | _, _ => none

/-- Python `float(value)` coercion as used in `GroqCritic._validate_scores`:
numbers pass through, booleans coerce to 0/1, strings are parsed as decimals,
everything else raises (modelled as `none`). -/
def pyFloatOf : PyVal → Option ℚ
  | .pyNum q => some q
  | .pyBool b => some (if b then 1 else 0)
  | .pyStr s => parseDec s
  | .pyNull => none
  | .pyList => none
  | .pyDict => none

/-- Validated critic scores (the dict produced by `_validate_scores`, which
always carries the three score keys and a `notes` string). -/
structure CriticScores where
  isrel : ℚ
  issup : ℚ
  isuse : ℚ
  notes : String := ""
  deriving DecidableEq, Repr

/-- Raw score dict as returned by the scoring chain: each score key may be
absent or hold an arbitrary scalar; notes may be absent. -/
structure RawScores where
  isrel : Option PyVal := none
  issup : Option PyVal := none
  isuse : Option PyVal := none
  notes : Option String := none
  deriving DecidableEq, Repr

/-- Fallback score value 0.5 (`CriticConfig.fallback_scores`). -/
def fallbackScore : ℚ := 1/2

/-- Clamp to the unit interval (`max(0.0, min(1.0, score))`). -/
def clamp01 (q : ℚ) : ℚ := max 0 (min 1 q)

/-- Per-key body of the two loops in `GroqCritic._validate_scores`: a missing
key is first replaced by the fallback 0.5 (which then trivially clamps to
itself); a present value is coerced with `float` and clamped, and replaced by
the fallback when the coercion raises. -/
def validateOne : Option PyVal → ℚ
  | none => fallbackScore
  | some pv =>
    match pyFloatOf pv with
    | some q => clamp01 q
    | none => fallbackScore

/-- `GroqCritic._validate_scores`: validate each of the three keys and ensure
a notes string exists. -/
def validateScores (raw : RawScores) : CriticScores :=
  { isrel := validateOne raw.isrel
    issup := validateOne raw.issup
    isuse := validateOne raw.isuse
    notes := raw.notes.getD "" }

/-- Outcome of the scoring chain invocation inside
`GroqCritic.score_candidate`: the call either raises (any exception) or
returns a raw score dict. -/
inductive ScoreReply where
  | err (msg : String)
  | ok (raw : RawScores)
  deriving DecidableEq, Repr

/-- `GroqCritic.score_candidate`: validate the chain result, or fall back to
`{0.5, 0.5, 0.5}` with an error note when the call fails. -/
def scoreCandidate : ScoreReply → CriticScores
  | .err msg =>
    { isrel := fallbackScore, issup := fallbackScore, isuse := fallbackScore
      notes := "Fallback due to error: " ++ msg }
  | .ok raw => validateScores raw

/-- Outcome of the retrieval-decision chain invocation inside
`GroqCritic.decide_retrieve`: the call raises, returns a non-dict value, or
returns a dict whose `retrieve` key (a boolean when present) and `notes` key
may each be absent. -/
inductive CriticReply where
  | raise (msg : String)
  | nonDict
  | dict (retrieve : Option Bool) (notes : Option String)
  deriving DecidableEq, Repr

/-- The decision dict returned by `decide_retrieve`: the `retrieve` key is
always present on return; `notes` may be absent. -/
structure RetrievalDecision where
  retrieve : Bool
  notes : Option String := none
  deriving DecidableEq, Repr

/-- `GroqCritic.decide_retrieve` with fallback `fb`
(`CriticConfig.fallback_retrieve`, default `True`): a raised call or a
non-dict reply yields the fallback decision with an error note; a dict reply
missing the `retrieve` key gets it set to the fallback and is returned as-is
otherwise. -/
def decideRetrieve (fb : Bool) : CriticReply → RetrievalDecision
  | .raise msg =>
    { retrieve := fb, notes := some ("Fallback due to error: " ++ msg) }
  | .nonDict =>
    { retrieve := fb, notes := some "Fallback due to error: Invalid response format" }
  | .dict r n => { retrieve := r.getD fb, notes := n }

/-- A retrieved passage as handed around the pipeline (the dicts produced by
`VectorRetriever.retrieve` and `LangChainReranker.rerank`).  The metadata
mapping is omitted: no claim inspects it. -/
structure Passage where
  id : String
  doc_text : String
  distance : ℚ := 0
  rerank_score : Option ℚ := none
  deriving DecidableEq, Repr

/-- A citation object inside a generated answer (api/models.py `Citation`). -/
structure Citation where
  doc_id : String
  chunk_id : Option String := none
  text_excerpt : String := ""
  deriving DecidableEq, Repr

/-- An answer dict as produced by the generator or by the canned error
responses; every key may be absent, matching the `.get` accesses performed on
it. -/
structure PyAnswer where
  explanation : Option String := none
  citations : Option (List Citation) := none
  confidence : Option String := none
  follow_up_questions : Option (List String) := none
  deriving DecidableEq, Repr

/-- The value stored under the `answer` key of `SelfRAG.run`'s result: either
an answer-shaped dict, or the insufficient-support payload
`{status, message, best_attempt, support_score}` which carries none of the
answer keys. -/
inductive AnswerVal where
  | plain (a : PyAnswer)
  | insufficient (message : String) (bestAttempt : Option PyAnswer) (supportScore : ℚ)
  deriving DecidableEq, Repr

/-- `rag_answer.get("explanation", dflt)` on the answer value. -/
def answerGetExplanation (a : AnswerVal) (dflt : String) : String :=
  match a with
  | .plain p => p.explanation.getD dflt
  | .insufficient _ _ _ => dflt

/-- `rag_answer.get("citations", [])` on the answer value. -/
def answerGetCitations (a : AnswerVal) : List Citation :=
  match a with
  | .plain p => p.citations.getD []
  | .insufficient _ _ _ => []

/-- `rag_answer.get("confidence", dflt)` on the answer value. -/
def answerGetConfidence (a : AnswerVal) (dflt : String) : String :=
  match a with
  | .plain p => p.confidence.getD dflt
  | .insufficient _ _ _ => dflt

/-- `rag_answer.get("follow_up_questions", [])` on the answer value. -/
def answerGetFollowUps (a : AnswerVal) : List String :=
  match a with
  | .plain p => p.follow_up_questions.getD []
  | .insufficient _ _ _ => []

/-- The public response schema (api/models.py `QueryResponse`). -/
structure QueryResponse where
  explanation : String
  citations : List Citation
  confidence : String
  follow_up_questions : List String
  deriving DecidableEq, Repr

/-- The transformation `query_endpoint` (src/api/app.py) applies to the
`answer` part of the internal run result to build the public response. -/
def queryEndpointResponse (a : AnswerVal) : QueryResponse :=
  { explanation := answerGetExplanation a "No explanation generated."
    citations := answerGetCitations a
    confidence := answerGetConfidence a "LOW"
    follow_up_questions := answerGetFollowUps a }

/-- The selection weights of `SelfRAG.__init__` (`selection_weights`). -/
def wIsrel : ℚ := 45/100

/-- Support weight of the combined score. -/
def wIssup : ℚ := 40/100

/-- Usefulness weight of the combined score. -/
def wIsuse : ℚ := 15/100

/-- `SelfRAG._calculate_combined_score`: weighted sum over the three score
keys (all three are always present in a validated score dict). -/
def calculateCombinedScore (s : CriticScores) : ℚ :=
  wIsrel * s.isrel + wIssup * s.issup + wIsuse * s.isuse

/-- A processed candidate (the dict built by `SelfRAG._process_candidate`). -/
structure Candidate where
  candidate_answer : PyAnswer
  passage : Passage
  score_components : CriticScores
  combined_score : ℚ
  candidate_index : ℕ
  deriving DecidableEq, Repr

/-- Outcome of the per-candidate work inside `_process_candidate`'s `try`
block: any exception there (`raise`) makes the candidate be dropped;
otherwise the generator produced an answer dict and the scoring chain
produced its reply. -/
inductive CandOutcome where
  | raise (msg : String)
  | ok (answer : PyAnswer) (score : ScoreReply)
  deriving DecidableEq, Repr

/-- `SelfRAG._process_candidate`: generate, score, combine; `none` when the
attempt raised. -/
def processCandidate (outcome : CandOutcome) (passage : Passage) (idx : ℕ) :
    Option Candidate :=
  match outcome with
  | .raise _ => none
  | .ok ans sc =>
    let scores := scoreCandidate sc
    some { candidate_answer := ans
           passage := passage
           score_components := scores
           combined_score := calculateCombinedScore scores
           candidate_index := idx }

/-- The per-candidate loop of `SelfRAG.run` (step 4): process each re-ranked
passage in order, keeping the successful results. -/
def processCandidates (outcomes : ℕ → CandOutcome) (passages : List Passage) :
    List Candidate :=
  passages.enum.filterMap fun ip => processCandidate (outcomes ip.1) ip.2 ip.1

/-- Stable descending insertion by `combined_score`: an element is placed
before the first element whose combined score does not exceed its own, so
equal scores keep their original relative order — exactly the behavior of
Python's stable `list.sort(key=..., reverse=True)`. -/
def insertByCombined (c : Candidate) : List Candidate → List Candidate
  | [] => [c]
  | d :: ds =>
    if d.combined_score ≤ c.combined_score then c :: d :: ds
    else d :: insertByCombined c ds

/-- `candidate_results.sort(key=lambda x: x["combined_score"], reverse=True)`
(src/core/self_rag.py line 203): stable sort by combined score descending. -/
def sortByCombinedDesc : List Candidate → List Candidate
  | [] => []
  | c :: cs => insertByCombined c (sortByCombinedDesc cs)

/-- `candidate_results[0]` after the sort: the selected best candidate. -/
def selectBest (l : List Candidate) : Option Candidate :=
  (sortByCombinedDesc l).head?

/-- Modelled from the spec: the Select-stage comparator the specification
describes — `combined` descending, ties by `issup` descending, then by
post-rerank `index` ascending.  This definition follows the spec's words and
exists to be compared with `sortByCombinedDesc`, which is translated from the
source. -/
def specBefore (a b : Candidate) : Bool :=
  decide (b.combined_score < a.combined_score) ||
  (decide (a.combined_score = b.combined_score) &&
    (decide (b.score_components.issup < a.score_components.issup) ||
      (decide (a.score_components.issup = b.score_components.issup) &&
        decide (a.candidate_index ≤ b.candidate_index))))

/-- Modelled from the spec: insertion step for the spec's comparator. -/
def specInsert (c : Candidate) : List Candidate → List Candidate
  | [] => [c]
  | d :: ds => if specBefore c d then c :: d :: ds else d :: specInsert c ds

/-- Modelled from the spec: sort by the spec's Select-stage comparator. -/
def specSort : List Candidate → List Candidate
  | [] => []
  | c :: cs => specInsert c (specSort cs)

/-- Modelled from the spec: the candidate the spec's Select stage picks. -/
def specSelectBest (l : List Candidate) : Option Candidate :=
  (specSort l).head?

/-- Per-candidate provenance entry (`CandidateProvenance` in
src/core/provenance.py).  The three critic-score fields are `none` throughout
because the pipeline never sets `isrel_score`/`issup_score`/`isuse_score`
keys on passage dicts. -/
structure CandidateProvenance where
  candidate_id : String
  doc_text_preview : String
  retrieval_score : ℚ
  rerank_score : Option ℚ := none
  isrel_score : Option ℚ := none
  issup_score : Option ℚ := none
  isuse_score : Option ℚ := none
  deriving DecidableEq, Repr

/-- Build one `CandidateProvenance` from a passage dict, as the loop in
`ProvenanceLogger.create_audit_record` does. -/
def candidateProvenanceOf (p : Passage) : CandidateProvenance :=
  { candidate_id := p.id
    doc_text_preview := p.doc_text.take 200
    retrieval_score := p.distance
    rerank_score := p.rerank_score }

/-- The `provenance_meta` dict assembled by `SelfRAG.run` and its handlers;
each key may be absent, matching the `.get` accesses in
`create_audit_record`. -/
structure ProvMeta where
  retrieval_decision : Option RetrievalDecision := none
  retrieval_performed : Option Bool := none
  retrieval_count : Option ℕ := none
  rerank_scores : Option (List ℚ) := none
  selected_candidate_index : Option ℕ := none
  selected_candidate_scores : Option CriticScores := none
  status : Option String := none
  error : Option String := none
  deriving DecidableEq, Repr

/-- The structured audit record (`AuditRecord` in src/core/provenance.py).
Timestamp, latency and model-version fields are omitted (wall-clock data no
claim mentions). -/
structure AuditRecord where
  run_id : String
  case_id : Option String
  query : String
  retrieval_decision : Option RetrievalDecision
  retrieval_performed : Bool
  retrieved_count : ℕ
  top_candidates : List CandidateProvenance
  rerank_scores : List ℚ
  selected_candidate_index : Option ℕ
  selected_candidate_scores : Option CriticScores
  confidence : String
  result : AnswerVal
  follow_up_questions : List String
  status : String
  error : Option String
  deriving DecidableEq, Repr

/-- `result.get("confidence", "UNKNOWN")` in `create_audit_record`. -/
def resultConfidenceGet : AnswerVal → String
  | .plain p => p.confidence.getD "UNKNOWN"
  | .insufficient _ _ _ => "UNKNOWN"

/-- `result.get("follow_up_questions", [])` in `create_audit_record`. -/
def resultFollowUpsGet : AnswerVal → List String
  | .plain p => p.follow_up_questions.getD []
  | .insufficient _ _ _ => []

/-- `ProvenanceLogger.create_audit_record`: assemble the audit record from
the run identifiers, the passed candidate list, the result and the
provenance meta, applying the `.get` defaults of the source. -/
def createAuditRecord (runId : String) (query : String)
    (topCandidates : List Passage) (result : AnswerVal) (meta : ProvMeta)
    (caseId : Option String) : AuditRecord :=
  { run_id := runId
    case_id := caseId
    query := query
    retrieval_decision := meta.retrieval_decision
    retrieval_performed := meta.retrieval_performed.getD true
    retrieved_count := meta.retrieval_count.getD 0
    top_candidates := topCandidates.map candidateProvenanceOf
    rerank_scores := meta.rerank_scores.getD []
    selected_candidate_index := meta.selected_candidate_index
    selected_candidate_scores := meta.selected_candidate_scores
    confidence := resultConfidenceGet result
    result := result
    follow_up_questions := resultFollowUpsGet result
    status := meta.status.getD "success"
    error := meta.error }

/-- Constructor parameters of `SelfRAG.__init__` that the control flow
reads.  `top_k`/`top_n` are forwarded to the external retriever and reranker
(which the oracle models), so only the threshold and the critic fallback
influence the modelled flow. -/
structure RunConfig where
  top_k : ℕ := 50
  top_n : ℕ := 6
  fully_supported_threshold : ℚ := 7/10
  fallback_retrieve : Bool := true
  deriving DecidableEq, Repr

/-- Per-run oracle: the outcomes of every external call `SelfRAG.run` makes,
in the order it makes them.  `Except.error` marks a call that raises (caught
by the orchestrator's outer `try`); calls whose implementations catch all
exceptions internally (generator, critic, follow-ups) are total. -/
structure Collaborators where
  runId : String
  decideReply : CriticReply
  genNoRetrieval : PyAnswer
  embedRetrieve : Except String (List Passage)
  rerankResult : Except String (List Passage × List ℚ)
  candOutcome : ℕ → CandOutcome
  followUps : List String

/-- The dict returned by `SelfRAG.run`, together with the audit-write trace
and a count of `decide_retrieve` invocations (ghost instrumentation of the
side effects).  `error` is the `error` key of the returned dict (`none` on
the two success paths); `selected` is the best candidate on the success
path. -/
structure RunResult where
  run_id : String
  answer : AnswerVal
  retrieval_performed : Bool
  error : Option String := none
  selected : Option Candidate := none
  audits : List AuditRecord
  critic_decide_calls : ℕ
  deriving Repr

/-- Canned answer of `SelfRAG._handle_empty_retrieval`. -/
def emptyRetrievalAnswer : PyAnswer :=
  { explanation := some "I couldn\'t find any relevant documents to answer your question. Please try rephrasing or ensure relevant documents are uploaded."
    citations := some []
    confidence := some "LOW" }

/-- `SelfRAG._handle_empty_retrieval`: canned LOW-confidence answer, audit
written with an empty candidate list.  (`decide_retrieve` has run exactly
once before any handler is reached.) -/
def handleEmptyRetrieval (rid query : String) (caseId : Option String) :
    RunResult :=
  let meta : ProvMeta :=
    { error := some "empty_retrieval", retrieval_performed := some true
      status := some "error" }
  let record := createAuditRecord rid query [] (.plain emptyRetrievalAnswer) meta caseId
  { run_id := rid
    answer := .plain emptyRetrievalAnswer
    retrieval_performed := true
    error := some "empty_retrieval"
    audits := [record]
    critic_decide_calls := 1 }

/-- `SelfRAG._handle_insufficient_support`: structured payload with the best
attempt; the audit is written with an empty candidate list even though
`passages` is non-empty here. -/
def handleInsufficientSupport (rid query : String) (passages : List Passage)
    (candidates : List Candidate) (scores : CriticScores)
    (caseId : Option String) : RunResult :=
  let response := AnswerVal.insufficient
    "The available documents don\'t provide sufficient support for a confident answer. You may need to provide additional documentation."
    ((candidates.head?).map Candidate.candidate_answer)
    scores.issup
  let meta : ProvMeta :=
    { error := some "insufficient_support", retrieval_performed := some true
      status := some "error" }
  let record := createAuditRecord rid query [] response meta caseId
  { run_id := rid
    answer := response
    retrieval_performed := true
    error := some "insufficient_support"
    audits := [record]
    critic_decide_calls := 1 }

/-- Canned answer of `SelfRAG._handle_processing_failure`. -/
def processingFailureAnswer : PyAnswer :=
  { explanation := some "I encountered an error while processing the documents. Please try again or contact support if the issue persists."
    citations := some []
    confidence := some "LOW" }

/-- `SelfRAG._handle_processing_failure`: canned LOW-confidence answer; the
audit is written with an empty candidate list even though `passages` is
non-empty here. -/
def handleProcessingFailure (rid query : String) (passages : List Passage)
    (caseId : Option String) : RunResult :=
  let meta : ProvMeta :=
    { error := some "processing_failure", retrieval_performed := some true
      status := some "error" }
  let record := createAuditRecord rid query [] (.plain processingFailureAnswer) meta caseId
  { run_id := rid
    answer := .plain processingFailureAnswer
    retrieval_performed := true
    error := some "processing_failure"
    audits := [record]
    critic_decide_calls := 1 }

/-- Canned answer of `SelfRAG._handle_pipeline_error`. -/
def pipelineErrorAnswer : PyAnswer :=
  { explanation := some "A system error occurred while processing your request. Our team has been notified."
    citations := some []
    confidence := some "LOW" }

/-- `SelfRAG._handle_pipeline_error`: canned LOW-confidence answer; the
returned dict carries `retrieval_performed = False` while the audit's meta
says `True` (a quirk of the source, preserved). -/
def handlePipelineError (rid query : String) (caseId : Option String) :
    RunResult :=
  let meta : ProvMeta :=
    { error := some "pipeline_error", retrieval_performed := some true
      status := some "error" }
  let record := createAuditRecord rid query [] (.plain pipelineErrorAnswer) meta caseId
  { run_id := rid
    answer := .plain pipelineErrorAnswer
    retrieval_performed := false
    error := some "pipeline_error"
    audits := [record]
    critic_decide_calls := 1 }

/-- `SelfRAG.run`: the full pipeline control flow of src/core/self_rag.py
lines 114-274, with every external call taken from the oracle `O`.  The
query is passed through untouched — the source performs no emptiness or
trimming check on it. -/
def runRAG (cfg : RunConfig) (O : Collaborators) (query : String)
    (caseId : Option String) : RunResult :=
  let rid := O.runId
  let decision := decideRetrieve cfg.fallback_retrieve O.decideReply
  if decision.retrieve = false then
    let ans := O.genNoRetrieval
    let meta : ProvMeta :=
      { retrieval_decision := some decision
        retrieval_performed := some false
        status := some "success" }
    let record := createAuditRecord rid query [] (.plain ans) meta caseId
    { run_id := rid
      answer := .plain ans
      retrieval_performed := false
      audits := [record]
      critic_decide_calls := 1 }
  else
    match O.embedRetrieve with
    | .error _ => handlePipelineError rid query caseId
    | .ok initialCandidates =>
      if initialCandidates.isEmpty then
        handleEmptyRetrieval rid query caseId
      else
        match O.rerankResult with
        | .error _ => handlePipelineError rid query caseId
        | .ok topAndScores =>
          let topPassages := topAndScores.1
          let rerankScores := topAndScores.2
          let candidateResults := processCandidates O.candOutcome topPassages
          if candidateResults.isEmpty then
            handleProcessingFailure rid query topPassages caseId
          else
          match sortByCombinedDesc candidateResults with
          | [] => handleProcessingFailure rid query topPassages caseId
          | best :: rest =>
            if best.score_components.issup < cfg.fully_supported_threshold then
              handleInsufficientSupport rid query topPassages (best :: rest)
                best.score_components caseId
            else
              let followUps := O.followUps
              let finalAnswer :=
                { best.candidate_answer with follow_up_questions := some followUps }
              let meta : ProvMeta :=
                { retrieval_decision := some decision
                  retrieval_performed := some true
                  retrieval_count := some initialCandidates.length
                  rerank_scores := some rerankScores
                  selected_candidate_index := some 0
                  selected_candidate_scores := some best.score_components
                  status := some "success" }
              let record := createAuditRecord rid query topPassages
                (.plain finalAnswer) meta caseId
              { run_id := rid
                answer := .plain finalAnswer
                retrieval_performed := true
                selected := some best
                audits := [record]
                critic_decide_calls := 1 }

/-- `ProvenanceLogger._get_current_audit_file`: the daily rotated JSONL file
every audit write appends to. -/
def auditDailyFile (date : String) : String := "audit_" ++ date ++ ".jsonl"

/-- The on-disk path component probed by `get_audit` (src/api/app.py,
`./audit/audit_{run_id}.json`). -/
def auditProbePath (runId : String) : String := "audit_" ++ runId ++ ".json"

/-- `get_audit`'s existence check: whether the probed per-run file is among
the files present in the audit directory. -/
def getAuditFound (runId : String) (files : List String) : Bool :=
  files.contains (auditProbePath runId)

/-- Concrete passage for counterexamples and witnesses. -/
def cexPassage : Passage := { id := "doc1", doc_text := "passage text" }

/-- Scores with combined 2/5 but low issup (1/10). -/
def cexScoresLo : CriticScores := { isrel := 4/5, issup := 1/10, isuse := 0 }

/-- Scores with combined 2/5 and maximal issup (1). -/
def cexScoresHi : CriticScores := { isrel := 0, issup := 1, isuse := 0 }

/-- Candidate at post-rerank index 0: combined 2/5, issup 1/10. -/
def cexCand0 : Candidate :=
  { candidate_answer := {}
    passage := cexPassage
    score_components := cexScoresLo
    combined_score := calculateCombinedScore cexScoresLo
    candidate_index := 0 }

/-- Candidate at post-rerank index 1: combined 2/5, issup 1. -/
def cexCand1 : Candidate :=
  { candidate_answer := {}
    passage := cexPassage
    score_components := cexScoresHi
    combined_score := calculateCombinedScore cexScoresHi
    candidate_index := 1 }

/-- Concrete outcome for the C4 witness: a numeric isrel, a string issup
that parses above 1 (so it clamps), and a missing isuse. -/
def witOutcome : CandOutcome :=
  .ok {} (.ok { isrel := some (.pyNum (9/10)), issup := some (.pyStr "2") })

/-- The candidate `processCandidate` produces from `witOutcome`: issup is
clamped to 1, isuse defaults to 0.5, combined is 0.405 + 0.4 + 0.075. -/
def witCandidate : Candidate :=
  { candidate_answer := {}
    passage := cexPassage
    score_components := { isrel := 9/10, issup := 1, isuse := 1/2 }
    combined_score := 22/25
    candidate_index := 0 }

/-- Generator answer used by the success-path witness oracle. -/
def witAnswer : PyAnswer :=
  { explanation := some "Basel III requires a minimum capital adequacy ratio."
    citations := some [{ doc_id := "doc1" }]
    confidence := some "HIGH" }

/-- Passage used by the witness oracles. -/
def witPassage : Passage := { id := "doc1", doc_text := "Basel III text." }

/-- Raw scores above the support threshold, for the success witness. -/
def witGoodScores : RawScores :=
  { isrel := some (.pyNum (9/10)), issup := some (.pyNum (17/20))
    isuse := some (.pyNum (7/10)) }

/-- Oracle on which the pipeline reaches the retrieval success terminal. -/
def successOracle : Collaborators :=
  { runId := "run-1"
    decideReply := .dict (some true) none
    genNoRetrieval := {}
    embedRetrieve := .ok [witPassage]
    rerankResult := .ok ([witPassage], [1])
    candOutcome := fun _ => .ok witAnswer (.ok witGoodScores)
    followUps := ["follow-up"] }

/-- Raw scores whose validated issup (0.5) is below the 0.7 threshold. -/
def insufRawScores : RawScores := { issup := some (.pyNum (1/2)) }

/-- Oracle on which the pipeline reaches insufficient_support. -/
def insufOracle : Collaborators :=
  { successOracle with candOutcome := fun _ => .ok {} (.ok insufRawScores) }

/-- Oracle on which retrieval returns no passages. -/
def emptyOracle : Collaborators :=
  { successOracle with embedRetrieve := .ok [] }

/-- Oracle on which the critic decides against retrieval. -/
def noRetrievalOracle : Collaborators :=
  { successOracle with decideReply := .dict (some false) none }

/-- The candidate `successOracle` produces and the pipeline selects. -/
def witSelectedCandidate : Candidate :=
  { candidate_answer := witAnswer
    passage := witPassage
    score_components := { isrel := 9/10, issup := 17/20, isuse := 7/10 }
    combined_score := 17/20
    candidate_index := 0 }

/-- The best (and only) candidate `insufOracle` produces. -/
def insufCandidate : Candidate :=
  { candidate_answer := {}
    passage := witPassage
    score_components := { isrel := 1/2, issup := 1/2, isuse := 1/2 }
    combined_score := 1/2
    candidate_index := 0 }

theorem insertByCombined_head (c : Candidate) (l : List Candidate) :
    ∃ b, (insertByCombined c l).head? = some b ∧
      c.combined_score ≤ b.combined_score ∧
      ∀ d, l.head? = some d → d.combined_score ≤ b.combined_score := by
  cases l with
  | nil => exact ⟨c, rfl, le_refl _, fun d hd => by cases hd⟩
  | cons d ds =>
    by_cases h : d.combined_score ≤ c.combined_score
    · refine ⟨c, by simp [insertByCombined, h], le_refl _, ?_⟩
      intro e he
      rw [List.head?_cons] at he
      cases he
      exact h
    · refine ⟨d, by simp [insertByCombined, h], le_of_not_le h, ?_⟩
      intro e he
      rw [List.head?_cons] at he
      cases he
      exact le_refl _

theorem mem_insertByCombined (x c : Candidate) (l : List Candidate) :
    x ∈ insertByCombined c l ↔ x = c ∨ x ∈ l := by
  induction l with
  | nil => simp [insertByCombined]
  | cons d ds ih =>
    by_cases h : d.combined_score ≤ c.combined_score
    · simp [insertByCombined, h]
    · simp [insertByCombined, h, ih]
      tauto

theorem mem_sortByCombinedDesc (x : Candidate) (l : List Candidate) :
    x ∈ sortByCombinedDesc l ↔ x ∈ l := by
  induction l with
  | nil => simp [sortByCombinedDesc]
  | cons c cs ih => simp [sortByCombinedDesc, mem_insertByCombined, ih]

theorem sortByCombinedDesc_head_ge (l : List Candidate) (c : Candidate)
    (hc : c ∈ l) :
    ∃ b, (sortByCombinedDesc l).head? = some b ∧
      c.combined_score ≤ b.combined_score := by
  induction l with
  | nil => cases hc
  | cons a as ih =>
    obtain ⟨b, hb, hab, hprev⟩ := insertByCombined_head a (sortByCombinedDesc as)
    rcases List.mem_cons.mp hc with rfl | hc
    · exact ⟨b, hb, hab⟩
    · obtain ⟨d, hd, hcd⟩ := ih hc
      exact ⟨b, hb, le_trans hcd (hprev d hd)⟩

/-- C3 (amended): the Select stage picks, from a non-empty candidate list,
a member of the list whose combined score is maximal (the sort is by combined
score descending only, stable, so ties keep the original post-rerank order);
in particular it never selects a candidate over another with a strictly
greater combined score. -/
theorem selectBest_mem_and_max (l : List Candidate) (b : Candidate)
    (hb : selectBest l = some b) :
    b ∈ l ∧ ∀ c ∈ l, c.combined_score ≤ b.combined_score := by
  constructor
  · have hmem : b ∈ sortByCombinedDesc l := by
      cases hs : sortByCombinedDesc l with
      | nil => rw [selectBest, hs] at hb; cases hb
      | cons x xs =>
        rw [selectBest, hs, List.head?_cons] at hb
        cases hb
        exact List.mem_cons_self _ _
    exact (mem_sortByCombinedDesc b l).mp hmem
  · intro c hc
    obtain ⟨b', hb', hcb⟩ := sortByCombinedDesc_head_ge l c hc
    rw [selectBest] at hb
    rw [hb] at hb'
    cases hb'
    exact hcb

/-- C3 counterexample: on two candidates with equal combined score, the code
keeps the earlier (index-0) candidate first — it selects the one with issup
1/10 — while the comparator stated by the spec (ties broken by issup
descending) would select the one with issup 1.  The code therefore does not
break ties by issup. -/
theorem selectBest_tiebreak_counterexample :
    cexCand0.combined_score = cexCand1.combined_score ∧
    (selectBest [cexCand0, cexCand1]).map
      (fun c => c.score_components.issup) = some (1/10) ∧
    (specSelectBest [cexCand0, cexCand1]).map
      (fun c => c.score_components.issup) = some 1 := by
  refine ⟨?_, ?_, ?_⟩
  · norm_num [cexCand0, cexCand1, cexScoresLo, cexScoresHi,
      calculateCombinedScore, wIsrel, wIssup, wIsuse]
  · norm_num [selectBest, sortByCombinedDesc, insertByCombined, cexCand0,
      cexCand1, cexScoresLo, cexScoresHi, calculateCombinedScore, wIsrel,
      wIssup, wIsuse]
  · norm_num [specSelectBest, specSort, specInsert, specBefore, cexCand0,
      cexCand1, cexScoresLo, cexScoresHi, calculateCombinedScore, wIsrel,
      wIssup, wIsuse]

/-- Witness for `selectBest_mem_and_max` at a concrete two-candidate list. -/
theorem selectBest_mem_and_max_witness :
    cexCand0 ∈ [cexCand0, cexCand1] ∧
    cexCand1.combined_score ≤ cexCand0.combined_score := by
  have h := selectBest_mem_and_max [cexCand0, cexCand1] cexCand0 (by
    norm_num [selectBest, sortByCombinedDesc, insertByCombined, cexCand0,
      cexCand1, cexScoresLo, cexScoresHi, calculateCombinedScore, wIsrel,
      wIssup, wIsuse])
  exact ⟨h.1, h.2 cexCand1 (by simp)⟩

theorem clamp01_nonneg (q : ℚ) : 0 ≤ clamp01 q := le_max_left 0 _

theorem clamp01_le_one (q : ℚ) : clamp01 q ≤ 1 :=
  max_le zero_le_one (min_le_left 1 q)

theorem validateOne_nonneg (ov : Option PyVal) : 0 ≤ validateOne ov := by
  cases ov with
  | none => norm_num [validateOne, fallbackScore]
  | some pv =>
    cases h : pyFloatOf pv with
    | none => simp [validateOne, h]; norm_num [fallbackScore]
    | some q => simp [validateOne, h, clamp01_nonneg]

theorem validateOne_le_one (ov : Option PyVal) : validateOne ov ≤ 1 := by
  cases ov with
  | none => norm_num [validateOne, fallbackScore]
  | some pv =>
    cases h : pyFloatOf pv with
    | none => simp [validateOne, h]; norm_num [fallbackScore]
    | some q => simp [validateOne, h, clamp01_le_one]

theorem scoreCandidate_isrel_mem (sc : ScoreReply) :
    0 ≤ (scoreCandidate sc).isrel ∧ (scoreCandidate sc).isrel ≤ 1 := by
  cases sc with
  | err m => norm_num [scoreCandidate, fallbackScore]
  | ok raw =>
    exact ⟨validateOne_nonneg raw.isrel, validateOne_le_one raw.isrel⟩

theorem scoreCandidate_issup_mem (sc : ScoreReply) :
    0 ≤ (scoreCandidate sc).issup ∧ (scoreCandidate sc).issup ≤ 1 := by
  cases sc with
  | err m => norm_num [scoreCandidate, fallbackScore]
  | ok raw =>
    exact ⟨validateOne_nonneg raw.issup, validateOne_le_one raw.issup⟩

theorem scoreCandidate_isuse_mem (sc : ScoreReply) :
    0 ≤ (scoreCandidate sc).isuse ∧ (scoreCandidate sc).isuse ≤ 1 := by
  cases sc with
  | err m => norm_num [scoreCandidate, fallbackScore]
  | ok raw =>
    exact ⟨validateOne_nonneg raw.isuse, validateOne_le_one raw.isuse⟩

/-- C4: every processed candidate has its three scores in [0, 1] and its
combined score equal (exactly, hence within 1e-9) to
0.45·isrel + 0.40·issup + 0.15·isuse. -/
theorem processCandidate_scores_valid (outcome : CandOutcome)
    (passage : Passage) (idx : ℕ) (c : Candidate)
    (h : processCandidate outcome passage idx = some c) :
    (0 ≤ c.score_components.isrel ∧ c.score_components.isrel ≤ 1) ∧
    (0 ≤ c.score_components.issup ∧ c.score_components.issup ≤ 1) ∧
    (0 ≤ c.score_components.isuse ∧ c.score_components.isuse ≤ 1) ∧
    |c.combined_score -
        (45/100 * c.score_components.isrel + 40/100 * c.score_components.issup +
          15/100 * c.score_components.isuse)| ≤ 1/1000000000 := by
  cases outcome with
  | raise m => simp [processCandidate] at h
  | ok ans sc =>
    simp only [processCandidate, Option.some.injEq] at h
    subst h
    refine ⟨scoreCandidate_isrel_mem sc, scoreCandidate_issup_mem sc,
      scoreCandidate_isuse_mem sc, ?_⟩
    simp only [calculateCombinedScore, wIsrel, wIssup, wIsuse]
    norm_num

/-- Witness for `processCandidate_scores_valid` at `witOutcome`. -/
theorem processCandidate_scores_valid_witness :
    (0 ≤ witCandidate.score_components.isrel ∧
      witCandidate.score_components.isrel ≤ 1) ∧
    (0 ≤ witCandidate.score_components.issup ∧
      witCandidate.score_components.issup ≤ 1) ∧
    (0 ≤ witCandidate.score_components.isuse ∧
      witCandidate.score_components.isuse ≤ 1) ∧
    |witCandidate.combined_score -
        (45/100 * witCandidate.score_components.isrel +
          40/100 * witCandidate.score_components.issup +
          15/100 * witCandidate.score_components.isuse)| ≤ 1/1000000000 :=
  processCandidate_scores_valid witOutcome cexPassage 0 witCandidate (by
    norm_num +decide [processCandidate, witOutcome, witCandidate, cexPassage,
      scoreCandidate, validateScores, validateOne, pyFloatOf, parseDec,
      digitsValAux, digitVal, clamp01, fallbackScore, calculateCombinedScore,
      wIsrel, wIssup, wIsuse])

/-- C6: `_validate_scores` computes each field by the per-key rule
`validateOne`, whose value is always in [0, 1]; a missing key yields the
fallback 0.5, a value on which the float coercion succeeds (numbers,
booleans, and strings that parse as decimals) is clamped to [0, 1], and a
value on which it raises is replaced by the fallback 0.5. -/
theorem validateScores_clamp_coerce_default (raw : RawScores) :
    validateScores raw =
      { isrel := validateOne raw.isrel, issup := validateOne raw.issup
        isuse := validateOne raw.isuse, notes := raw.notes.getD "" } ∧
    (∀ ov : Option PyVal, 0 ≤ validateOne ov ∧ validateOne ov ≤ 1) ∧
    validateOne none = 1/2 ∧
    (∀ (pv : PyVal) (q : ℚ), pyFloatOf pv = some q →
      validateOne (some pv) = clamp01 q) ∧
    (∀ pv : PyVal, pyFloatOf pv = none → validateOne (some pv) = 1/2) := by
  refine ⟨rfl, fun ov => ⟨validateOne_nonneg ov, validateOne_le_one ov⟩,
    by norm_num [validateOne, fallbackScore], ?_, ?_⟩
  · intro pv q hq
    simp [validateOne, hq]
  · intro pv hq
    simp [validateOne, hq, fallbackScore]

/-- Witness for `validateScores_clamp_coerce_default`: the string "1.5"
parses and clamps to 1, a missing key and a null value both fall back to
0.5. -/
theorem validateScores_clamp_coerce_default_witness :
    validateOne (some (PyVal.pyStr "1.5")) = clamp01 (3/2) ∧
    validateOne none = 1/2 ∧
    validateOne (some PyVal.pyNull) = 1/2 := by
  have h := validateScores_clamp_coerce_default {}
  refine ⟨h.2.2.2.1 (PyVal.pyStr "1.5") (3/2) ?_, h.2.2.1,
    h.2.2.2.2 PyVal.pyNull rfl⟩
  norm_num +decide [pyFloatOf, parseDec, digitsValAux, digitVal]

/-- C7 (amended): `decide_retrieve` fails open toward retrieval under the
default configuration (`fallback_retrieve = True`): a raised call or a
non-dict reply yields `retrieve = true` together with a notes string, and a
dict reply missing the `retrieve` key yields `retrieve = true` with the
reply's notes left as they were (absent when the reply had none). -/
theorem decideRetrieve_fail_open :
    (∀ msg : String, (decideRetrieve true (CriticReply.raise msg)).retrieve = true ∧
      (decideRetrieve true (CriticReply.raise msg)).notes =
        some ("Fallback due to error: " ++ msg)) ∧
    ((decideRetrieve true CriticReply.nonDict).retrieve = true ∧
      (decideRetrieve true CriticReply.nonDict).notes =
        some "Fallback due to error: Invalid response format") ∧
    (∀ n : Option String,
      (decideRetrieve true (CriticReply.dict none n)).retrieve = true ∧
      (decideRetrieve true (CriticReply.dict none n)).notes = n) := by
  exact ⟨fun msg => ⟨rfl, rfl⟩, ⟨rfl, rfl⟩, fun n => ⟨rfl, rfl⟩⟩

/-- C7 counterexample: a dict reply that merely lacks the `retrieve` key is
returned with `retrieve` set to the fallback but with no notes string, so
the claim that every malformed reply yields a decision carrying a notes
string fails on this input. -/
theorem decideRetrieve_missing_key_no_notes :
    decideRetrieve true (CriticReply.dict none none) =
      { retrieve := true, notes := none } := rfl

theorem append_json_ne_append_jsonl (a b : String) :
    (a ++ ".json") ≠ (b ++ ".jsonl") := by
  intro h
  have h2 : (a ++ ".json").data = (b ++ ".jsonl").data := by rw [h]
  rw [String.data_append, String.data_append] at h2
  have h3 := congrArg List.getLast? h2
  rw [List.getLast?_append, List.getLast?_append] at h3
  simp at h3

theorem contains_eq_false_of_ne (p : String) (l : List String)
    (h : ∀ x ∈ l, p ≠ x) : l.contains p = false := by
  induction l with
  | nil => rfl
  | cons d ds ih =>
    simp only [List.contains_cons, Bool.or_eq_false_iff]
    exact ⟨beq_eq_false_iff_ne.mpr (h d (List.mem_cons_self d ds)),
      ih (fun x hx => h x (List.mem_cons_of_mem d hx))⟩

/-- C8: the lookup of `GET /audit/run_id` can never succeed on the files the
logger writes — the endpoint probes the per-run name `audit_run_id.json`,
while every audit write of `ProvenanceLogger` appends to a daily
`audit_YYYYMMDD.jsonl` file, and no run identifier and date can make the two
names coincide; concretely, a freshly written daily file is never found. -/
theorem getAudit_never_finds_written_audits :
    (∀ (runId : String) (dates : List String),
      getAuditFound runId (dates.map auditDailyFile) = false) ∧
    getAuditFound "3f2c6f2e" [auditDailyFile "20251012"] = false := by
  have hne : ∀ (runId date : String), auditProbePath runId ≠ auditDailyFile date := by
    intro runId date h
    have h2 : ("audit_" ++ runId) ++ ".json" = ("audit_" ++ date) ++ ".jsonl" := by
      simpa [auditProbePath, auditDailyFile, String.append_assoc] using h
    exact append_json_ne_append_jsonl ("audit_" ++ runId) ("audit_" ++ date) h2
  have main : ∀ (runId : String) (dates : List String),
      getAuditFound runId (dates.map auditDailyFile) = false := by
    intro runId dates
    refine contains_eq_false_of_ne _ _ ?_
    intro x hx
    obtain ⟨d, _, rfl⟩ := List.mem_map.mp hx
    exact hne runId d
  exact ⟨main, main "3f2c6f2e" ["20251012"]⟩

/-- C2: every run, whatever terminal it reaches, writes exactly one audit
record, and that record carries the run identifier of the response. -/
theorem runRAG_exactly_one_audit (cfg : RunConfig) (O : Collaborators)
    (q : String) (cid : Option String) :
    (runRAG cfg O q cid).audits.map AuditRecord.run_id =
      [(runRAG cfg O q cid).run_id] ∧
    (runRAG cfg O q cid).run_id = O.runId := by
  simp only [runRAG]
  split
  · simp [createAuditRecord]
  · split
    · simp [handlePipelineError, createAuditRecord]
    · split
      · simp [handleEmptyRetrieval, createAuditRecord]
      · split
        · simp [handlePipelineError, createAuditRecord]
        · split
          · simp [handleProcessingFailure, createAuditRecord]
          · split
            · simp [handleProcessingFailure, createAuditRecord]
            · split
              · simp [handleInsufficientSupport, createAuditRecord]
              · simp [createAuditRecord]

theorem sortByCombinedDesc_cons_isEmpty_false (l : List Candidate)
    (c : Candidate) (cs : List Candidate)
    (h : sortByCombinedDesc l = c :: cs) : l.isEmpty = false := by
  cases l with
  | nil => simp [sortByCombinedDesc] at h
  | cons a as => rfl

/-- C5 (amended): `run` performs no emptiness check on the query — a query
that is empty after trimming is processed like any other: the critic's
retrieval decision is invoked exactly once, no `bad_request` terminal exists
(the error field never carries it), and an audit record is still written. -/
theorem runRAG_empty_query_processed_normally (cfg : RunConfig)
    (O : Collaborators) (cid : Option String) :
    (runRAG cfg O "" cid).critic_decide_calls = 1 ∧
    ((runRAG cfg O "" cid).error == some "bad_request") = false ∧
    (runRAG cfg O "" cid).audits.length = 1 := by
  simp only [runRAG]
  split
  · simp [createAuditRecord]
  · split
    · simp +decide [handlePipelineError, createAuditRecord]
    · split
      · simp +decide [handleEmptyRetrieval, createAuditRecord]
      · split
        · simp +decide [handlePipelineError, createAuditRecord]
        · split
          · simp +decide [handleProcessingFailure, createAuditRecord]
          · split
            · simp +decide [handleProcessingFailure, createAuditRecord]
            · split
              · simp +decide [handleInsufficientSupport, createAuditRecord]
              · simp [createAuditRecord]

/-- C5 counterexample: on the empty query the pipeline still invokes the
critic (one decide call) and terminates in a no-retrieval success — not in a
`bad_request` terminal reached without invoking the critic. -/
theorem runRAG_empty_query_counterexample :
    (runRAG {} noRetrievalOracle "" none).critic_decide_calls = 1 ∧
    (runRAG {} noRetrievalOracle "" none).error = none := by
  exact ⟨rfl, rfl⟩

/-- C9: whenever a run ends in any error terminal (its result carries an
error key), the public response the HTTP layer builds from the answer is
Answer-shaped with `confidence = "LOW"`, empty citations and empty follow-up
questions. -/
theorem runRAG_error_low_confidence (cfg : RunConfig) (O : Collaborators)
    (q : String) (cid : Option String) (e : String) :
    (runRAG cfg O q cid).error = some e →
    (queryEndpointResponse (runRAG cfg O q cid).answer).confidence = "LOW" ∧
    (queryEndpointResponse (runRAG cfg O q cid).answer).citations = [] ∧
    (queryEndpointResponse (runRAG cfg O q cid).answer).follow_up_questions = [] := by
  simp only [runRAG]
  split
  · intro h; simp at h
  · split
    · intro h
      simp [handlePipelineError, queryEndpointResponse, answerGetConfidence,
        answerGetCitations, answerGetFollowUps, pipelineErrorAnswer]
    · split
      · intro h
        simp [handleEmptyRetrieval, queryEndpointResponse, answerGetConfidence,
          answerGetCitations, answerGetFollowUps, emptyRetrievalAnswer]
      · split
        · intro h
          simp [handlePipelineError, queryEndpointResponse, answerGetConfidence,
            answerGetCitations, answerGetFollowUps, pipelineErrorAnswer]
        · split
          · intro h
            simp [handleProcessingFailure, queryEndpointResponse,
              answerGetConfidence, answerGetCitations, answerGetFollowUps,
              processingFailureAnswer]
          · split
            · intro h
              simp [handleProcessingFailure, queryEndpointResponse,
                answerGetConfidence, answerGetCitations, answerGetFollowUps,
                processingFailureAnswer]
            · split
              · intro h
                simp [handleInsufficientSupport, queryEndpointResponse,
                  answerGetConfidence, answerGetCitations, answerGetFollowUps]
              · intro h; simp at h

/-- Witness for `runRAG_error_low_confidence` at the empty-retrieval
terminal. -/
theorem runRAG_error_low_confidence_witness :
    (queryEndpointResponse (runRAG {} emptyOracle "q" none).answer).confidence = "LOW" ∧
    (queryEndpointResponse (runRAG {} emptyOracle "q" none).answer).citations = [] ∧
    (queryEndpointResponse (runRAG {} emptyOracle "q" none).answer).follow_up_questions = [] :=
  runRAG_error_low_confidence {} emptyOracle "q" none "empty_retrieval" rfl

/-- C10: whenever a run ends in any error terminal, the audit record it
writes has an empty top_candidates list, a retrieved_count of 0 and an empty
rerank_scores list — retrieved passages and per-candidate scores are absent
from the audit even when retrieval and scoring occurred. -/
theorem runRAG_error_audit_empty_candidates (cfg : RunConfig)
    (O : Collaborators) (q : String) (cid : Option String) (e : String) :
    (runRAG cfg O q cid).error = some e →
    (runRAG cfg O q cid).audits.map AuditRecord.top_candidates = [[]] ∧
    (runRAG cfg O q cid).audits.map AuditRecord.retrieved_count = [0] ∧
    (runRAG cfg O q cid).audits.map AuditRecord.rerank_scores = [[]] := by
  simp only [runRAG]
  split
  · intro h; simp at h
  · split
    · intro h; simp [handlePipelineError, createAuditRecord]
    · split
      · intro h; simp [handleEmptyRetrieval, createAuditRecord]
      · split
        · intro h; simp [handlePipelineError, createAuditRecord]
        · split
          · intro h; simp [handleProcessingFailure, createAuditRecord]
          · split
            · intro h; simp [handleProcessingFailure, createAuditRecord]
            · split
              · intro h; simp [handleInsufficientSupport, createAuditRecord]
              · intro h; simp at h

/-- Witness for `runRAG_error_audit_empty_candidates` at the empty-retrieval
terminal. -/
theorem runRAG_error_audit_empty_candidates_witness :
    (runRAG {} emptyOracle "q" none).audits.map AuditRecord.top_candidates = [[]] ∧
    (runRAG {} emptyOracle "q" none).audits.map AuditRecord.retrieved_count = [0] ∧
    (runRAG {} emptyOracle "q" none).audits.map AuditRecord.rerank_scores = [[]] :=
  runRAG_error_audit_empty_candidates {} emptyOracle "q" none "empty_retrieval" rfl

/-- C1: a run that returns success with retrieval performed has selected a
candidate whose issup score is at least the support threshold; and whenever
the pipeline reaches selection with a best candidate whose issup is below
the threshold, the run terminates in the insufficient_support state. -/
theorem runRAG_success_support_threshold (cfg : RunConfig) (O : Collaborators)
    (q : String) (cid : Option String) :
    ((runRAG cfg O q cid).error = none →
      (runRAG cfg O q cid).retrieval_performed = true →
      (runRAG cfg O q cid).selected ≠ none ∧
      ∀ c : Candidate, (runRAG cfg O q cid).selected = some c →
        cfg.fully_supported_threshold ≤ c.score_components.issup) ∧
    (∀ (ps tps : List Passage) (rss : List ℚ) (best : Candidate)
        (rest : List Candidate),
      (decideRetrieve cfg.fallback_retrieve O.decideReply).retrieve = true →
      O.embedRetrieve = Except.ok ps → ps.isEmpty = false →
      O.rerankResult = Except.ok (tps, rss) →
      sortByCombinedDesc (processCandidates O.candOutcome tps) = best :: rest →
      best.score_components.issup < cfg.fully_supported_threshold →
      (runRAG cfg O q cid).error = some "insufficient_support") := by
  constructor
  · simp only [runRAG]
    split
    · intro h1 h2; simp at h2
    · split
      · intro h1 h2; simp [handlePipelineError] at h1
      · split
        · intro h1 h2; simp [handleEmptyRetrieval] at h1
        · split
          · intro h1 h2; simp [handlePipelineError] at h1
          · split
            · intro h1 h2; simp [handleProcessingFailure] at h1
            · split
              · intro h1 h2; simp [handleProcessingFailure] at h1
              · split
                · intro h1 h2; simp [handleInsufficientSupport] at h1
                · rename_i hguard
                  intro h1 h2
                  refine ⟨by simp, ?_⟩
                  intro c hc
                  simp only [Option.some.injEq] at hc
                  subst hc
                  exact le_of_not_lt hguard
  · intro ps tps rss best rest hdec hok hne hrr hsort hlow
    have hce : (processCandidates O.candOutcome tps).isEmpty = false :=
      sortByCombinedDesc_cons_isEmpty_false _ _ _ hsort
    simp [runRAG, hdec, hok, hne, hrr, hce, hsort, hlow,
      handleInsufficientSupport, createAuditRecord]

theorem successOracle_run_eval :
    (runRAG {} successOracle "q" none).error = none ∧
    (runRAG {} successOracle "q" none).retrieval_performed = true ∧
    (runRAG {} successOracle "q" none).selected = some witSelectedCandidate := by
  norm_num +decide [runRAG, successOracle, witPassage, witAnswer,
    witGoodScores, witSelectedCandidate, decideRetrieve, processCandidates,
    processCandidate, scoreCandidate, validateScores, validateOne, pyFloatOf,
    clamp01, fallbackScore, calculateCombinedScore, wIsrel, wIssup, wIsuse,
    sortByCombinedDesc, insertByCombined, createAuditRecord, List.enum,
    List.enumFrom, min_def, max_def]

/-- Witness for `runRAG_success_support_threshold`: the success oracle
selects a candidate meeting the threshold, and the insufficient oracle (best
issup 0.5 after retrieval and scoring) terminates in insufficient_support. -/
theorem runRAG_success_support_threshold_witness :
    ({} : RunConfig).fully_supported_threshold ≤
      witSelectedCandidate.score_components.issup ∧
    (runRAG {} insufOracle "q" none).error = some "insufficient_support" := by
  constructor
  · have h := (runRAG_success_support_threshold {} successOracle "q" none).1
      successOracle_run_eval.1 successOracle_run_eval.2.1
    exact h.2 witSelectedCandidate successOracle_run_eval.2.2
  · refine (runRAG_success_support_threshold {} insufOracle "q" none).2
      [witPassage] [witPassage] [1] insufCandidate [] rfl rfl rfl rfl ?_
      (by norm_num [insufCandidate])
    norm_num +decide [insufOracle, successOracle, witPassage, insufRawScores,
      insufCandidate, processCandidates, processCandidate, scoreCandidate,
      validateScores, validateOne, pyFloatOf, clamp01, fallbackScore,
      calculateCombinedScore, wIsrel, wIssup, wIsuse, sortByCombinedDesc,
      insertByCombined, List.enum, List.enumFrom, min_def, max_def]

end CreditExplain
